import Mathlib

/-!
Shallow embedding of the Trade Enrichment & Behavioral Scoring Engine of the
Test_REFLEX repository (src/app/routers/analysis.py, src/app/services/market.py,
src/app/models.py), together with theorems settling the frozen claims about it.

Modelling conventions:
* Python floats are modelled as rational numbers (ℚ).  Quantities produced
  through a square root (numpy std, the Sortino denominator) live in ℝ.
  NaN and Infinity do not arise in this model, so the sanitizer `safe_float`
  of analysis.py is the identity on ℚ.
* Timestamps are rationals measured in hours, so the code's
  `(t2 - t1).total_seconds() / 3600` is simply `t2 - t1` here.
* External market data (yfinance downloads) is an explicit input: each raw
  trade is mapped to `Option MarketData`; `none` models a failed fetch, in
  which case calculate_metrics degrades to the sentinel defaults, exactly as
  the `except` branch of market.py does.
-/

namespace Reflex

/-- One row of the uploaded CSV after column normalisation
(analysis.py, lines 277-310).  `entryTime`/`exitTime` are the parsed
`entry_date`/`exit_date` timestamps, measured in hours. -/
structure RawTrade where
  ticker : String
  entryTime : ℚ
  exitTime : ℚ
  entryPrice : ℚ
  exitPrice : ℚ
  qty : ℚ
  deriving DecidableEq, Inhabited

/-- The market data that calculate_metrics (market.py, lines 267-448) reads for
one trade.  `preEntryRange` is `some (high, low)` when 5-minute intraday bars up
to the entry timestamp are available (market.py, lines 325-339), otherwise the
daily entry-day bar is used.  `avgVolEntry`/`avgVolExit` are the 20-bar rolling
average volumes, `none` when fewer than 20 bars of history exist (lines
355-365 and 384-394).  `holdingLows`/`holdingHighs` are the Low/High series over
the holding window used for MAE/MFE (intraday bars when available, daily bars
otherwise; market.py, lines 84-210), and `postExitHighs` the Highs of the up to
3 bars after the exit date (regret; market.py via analysis, lines 421-431). -/
structure MarketData where
  entryHigh : ℚ
  entryLow : ℚ
  exitHigh : ℚ
  exitLow : ℚ
  preEntryRange : Option (ℚ × ℚ)
  entryVol : ℚ
  exitVol : ℚ
  avgVolEntry : Option ℚ
  avgVolExit : Option ℚ
  holdingLows : List ℚ
  holdingHighs : List ℚ
  postExitHighs : List ℚ
  deriving DecidableEq, Inhabited

/-- market.py, lines 212-235: volume weight from the ratio of current volume to
the 20-bar average volume. -/
def calculate_volume_weight (currentVolume avgVolume : ℚ) : ℚ :=
  if avgVolume ≤ 0 then 1
  else
    let ratio := currentVolume / avgVolume
    if ratio < 1 then 1
    else if ratio < 5/2 then 1
    else if ratio < 5 then 6/5
    else 3/2

/-- The entry-side/exit-side volume weight derivation of market.py, lines
355-365 and 384-394: the 20-bar rolling average is only available with at
least 20 bars of history (`none` otherwise, leaving the weight at 1.0), and
the weight is computed only for a strictly positive average. -/
def volumeWeightFromAvg (currentVolume : ℚ) (avgVolume : Option ℚ) : ℚ :=
  match avgVolume with
  | some av => if 0 < av then calculate_volume_weight currentVolume av else 1
  | none => 1

/-- The per-trade metrics dictionary returned by calculate_metrics
(market.py, lines 433-448). -/
structure TradeMetrics where
  fomo_score : ℚ
  panic_score : ℚ
  fomo_score_base : ℚ
  panic_score_base : ℚ
  volume_weight_entry : ℚ
  volume_weight_exit : ℚ
  mae : ℚ
  mfe : ℚ
  efficiency : ℚ
  regret : ℚ
  entry_day_high : ℚ
  entry_day_low : ℚ
  exit_day_high : ℚ
  exit_day_low : ℚ
  deriving DecidableEq, Inhabited

/-- The sentinel defaults used when market data is unavailable or
calculate_metrics raises (market.py, lines 450-460; analysis.py, lines
292-300). -/
def sentinelMetrics : TradeMetrics :=
  { fomo_score := -1, panic_score := -1
    fomo_score_base := -1, panic_score_base := -1
    volume_weight_entry := 1, volume_weight_exit := 1
    mae := 0, mfe := 0, efficiency := 0, regret := 0
    entry_day_high := 0, entry_day_low := 0
    exit_day_high := 0, exit_day_low := 0 }

/-- Minimum of a list with an explicit fallback for the empty case, modelling
`series.min() if not series.empty else fallback`. -/
def listMinD (l : List ℚ) (fallback : ℚ) : ℚ :=
  match l with
  | [] => fallback
  | x :: xs => xs.foldl min x

/-- Maximum of a list with an explicit fallback for the empty case. -/
def listMaxD (l : List ℚ) (fallback : ℚ) : ℚ :=
  match l with
  | [] => fallback
  | x :: xs => xs.foldl max x

/-- market.py, lines 267-448: per-trade metric calculation.  Division by zero
cannot occur on the paths below: every division is guarded exactly as in the
source, and the two divisions by `entry_price` (MAE/MFE) coincide with the
source's behaviour because a Python ZeroDivisionError is caught and turned into
`(0, 0)` (market.py, lines 119-120), which is also the value `ℚ` division by
zero yields here. -/
def calculate_metrics (t : RawTrade) (md : MarketData) : TradeMetrics :=
  let userPrice := t.entryPrice
  -- stock-split auto correction (market.py, lines 289-301)
  let splitRatio : ℚ :=
    if 0 < md.entryHigh then
      let ratio := userPrice / md.entryHigh
      if 2 < ratio ∨ ratio < 1/2 then ratio else 1
    else 1
  let adjust : ℚ → ℚ := fun p => p * splitRatio
  let entryHighAdj := adjust md.entryHigh
  let entryLowAdj := adjust md.entryLow
  -- FOMO range: intraday bars up to the entry time when available
  -- (market.py, lines 316-347)
  let rangePair : ℚ × ℚ :=
    match md.preEntryRange with
    | some (h, l) => (adjust h - adjust l, adjust l)
    | none => (entryHighAdj - entryLowAdj, entryLowAdj)
  let dayRange := rangePair.1
  let rangeLowAdj := rangePair.2
  let fomoBase0 : ℚ := if 0 < dayRange then (userPrice - rangeLowAdj) / dayRange else 1/2
  let fomo_score_base := max 0 (min 1 fomoBase0)
  -- entry-side volume weight (market.py, lines 355-365)
  let volume_weight_entry : ℚ := volumeWeightFromAvg md.entryVol md.avgVolEntry
  -- contextual FOMO (market.py, lines 367-370)
  let fomo_score :=
    if 1 < volume_weight_entry ∧ 7/10 < fomo_score_base then
      min 1 (fomo_score_base * volume_weight_entry)
    else fomo_score_base
  -- panic base (market.py, lines 372-382)
  let exitHighAdj := adjust md.exitHigh
  let exitLowAdj := adjust md.exitLow
  let userExitPrice := t.exitPrice
  let exitRange := exitHighAdj - exitLowAdj
  let panicBase0 : ℚ := if 0 < exitRange then (userExitPrice - exitLowAdj) / exitRange else 1/2
  let panic_score_base := max 0 (min 1 panicBase0)
  -- exit-side volume weight (market.py, lines 384-394)
  let volume_weight_exit : ℚ := volumeWeightFromAvg md.exitVol md.avgVolExit
  -- contextual panic (market.py, lines 396-400)
  let panic_score :=
    if 1 < volume_weight_exit ∧ panic_score_base < 3/10 then
      max 0 (panic_score_base * (2 - volume_weight_exit))
    else panic_score_base
  -- MAE / MFE over the holding window (market.py, lines 84-210, 402-411)
  let minLowRaw := listMinD md.holdingLows md.entryLow
  let maxHighRaw := listMaxD md.holdingHighs md.entryHigh
  let mae := (adjust minLowRaw - userPrice) / userPrice
  let mfe := (adjust maxHighRaw - userPrice) / userPrice
  -- efficiency (market.py, lines 413-419)
  let maxPotential := userPrice * mfe
  let realized := userExitPrice - userPrice
  let efficiency := if 0 < maxPotential then max 0 (realized / maxPotential) else 0
  -- regret over the 3 bars after exit (market.py, lines 421-431)
  let regret :=
    match md.postExitHighs with
    | [] => 0
    | l => max 0 ((adjust (listMaxD l 0) - userExitPrice) * t.qty)
  { fomo_score := fomo_score, panic_score := panic_score
    fomo_score_base := fomo_score_base, panic_score_base := panic_score_base
    volume_weight_entry := volume_weight_entry, volume_weight_exit := volume_weight_exit
    mae := mae, mfe := mfe, efficiency := efficiency, regret := regret
    entry_day_high := entryHighAdj, entry_day_low := entryLowAdj
    exit_day_high := exitHighAdj, exit_day_low := exitLowAdj }

/-- analysis.py, lines 30-34: round-trip transaction cost (0.1% commission and
0.05% slippage, each charged twice, on the absolute entry-side trade value). -/
def calculate_trading_cost (entry_price _exit_price qty : ℚ) : ℚ :=
  let trade_value := |entry_price * qty|
  trade_value * (1/1000) * 2 + trade_value * (5/10000) * 2

/-- analysis.py, lines 231-244: market-regime weight table. -/
def calculate_regime_weight (market_regime : String) (fomo_score panic_score : ℚ) : ℚ :=
  let is_fomo_buy := fomo_score ≠ -1 ∧ 7/10 ≤ fomo_score
  let is_panic_sell := panic_score ≠ -1 ∧ panic_score ≤ 3/10
  if market_regime = "BULL" then
    if is_panic_sell then 3/2
    else if is_fomo_buy then 4/5
    else 1
  else if market_regime = "BEAR" then
    if is_fomo_buy then 3/2
    else if is_panic_sell then 1
    else 1
  else 1

/-- One enriched trade: the dictionary built in analysis.py, lines 326-340,
which is also (with the revenge flag updated in place) the shape of the
EnrichedTrade records returned in the response (lines 825-854).  The
display-only contextual-score decomposition fields (lines 780-823) and the
string id are not needed by any claim and are omitted. -/
structure ETrade where
  ticker : String
  entryTime : ℚ
  exitTime : ℚ
  entryPrice : ℚ
  exitPrice : ℚ
  qty : ℚ
  pnl : ℚ
  returnPct : ℚ
  durationDays : ℤ
  marketRegime : String
  isRevenge : Bool
  fomo_score : ℚ
  panic_score : ℚ
  fomo_score_base : ℚ
  panic_score_base : ℚ
  volume_weight_entry : ℚ
  volume_weight_exit : ℚ
  mae : ℚ
  mfe : ℚ
  efficiency : ℚ
  regret : ℚ
  deriving DecidableEq, Inhabited

/-- analysis.py, lines 277-340: enrich one raw trade.  `md = none` models a
failed market-data fetch (the trade keeps the sentinel metrics), and `regime`
is the label produced by detect_market_regime for the entry date (an external
benchmark download, supplied here as an input). -/
def enrich (t : RawTrade) (md : Option MarketData) (regime : String) : ETrade :=
  let m := match md with
    | some d => calculate_metrics t d
    | none => sentinelMetrics
  let trading_cost := calculate_trading_cost t.entryPrice t.exitPrice t.qty
  let pnl_gross := (t.exitPrice - t.entryPrice) * t.qty
  let pnl := pnl_gross - trading_cost
  let ret_pct := if t.entryPrice ≠ 0 then (t.exitPrice - t.entryPrice) / t.entryPrice else 0
  let duration : ℤ := max 0 ⌊(t.exitTime - t.entryTime) / 24⌋
  { ticker := t.ticker
    entryTime := t.entryTime, exitTime := t.exitTime
    entryPrice := t.entryPrice, exitPrice := t.exitPrice, qty := t.qty
    pnl := pnl, returnPct := ret_pct, durationDays := duration
    marketRegime := regime, isRevenge := false
    fomo_score := m.fomo_score, panic_score := m.panic_score
    fomo_score_base := m.fomo_score_base, panic_score_base := m.panic_score_base
    volume_weight_entry := m.volume_weight_entry, volume_weight_exit := m.volume_weight_exit
    mae := m.mae, mfe := m.mfe, efficiency := m.efficiency, regret := m.regret }

/-- Entry-time order used by `trades_df.sort_values('entry_dt')`
(analysis.py, line 346). -/
def entryLE (a b : ETrade) : Prop := a.entryTime ≤ b.entryTime

instance : DecidableRel entryLE := fun a b => inferInstanceAs (Decidable (a.entryTime ≤ b.entryTime))

/-- Sorting the enriched trades chronologically (analysis.py, line 346). -/
def sortByEntry (l : List ETrade) : List ETrade := List.insertionSort entryLE l

/-- The revenge condition tested for one prior trade of the same ticker
(analysis.py, lines 352-360): a prior same-ticker loss whose exit precedes the
current entry by 0 to 24 hours. -/
def revengeCond (curr prev : ETrade) : Bool :=
  prev.ticker == curr.ticker && decide (prev.pnl < 0) &&
  decide (0 ≤ curr.entryTime - prev.exitTime) &&
  decide (curr.entryTime - prev.exitTime ≤ 24)

/-- analysis.py, lines 348-364: whether the trade at position `i` of the
entry-time-sorted list is flagged as revenge (scan of all prior rows; the
`break` at the first qualifying prior is `List.any`). -/
def isRevengeFlag (s : List ETrade) (i : ℕ) : Bool :=
  (s.take i).any (fun prev => revengeCond (s.getD i default) prev)

/-- The list of revenge flags, one per position of the sorted list. -/
def revengeFlags (s : List ETrade) : List Bool :=
  (List.range s.length).map (fun i => isRevengeFlag s i)

/-- analysis.py, lines 348-364: the sorted trade list with revenge flags set. -/
def markRevenge (s : List ETrade) : List ETrade :=
  (List.range s.length).map (fun i => { s.getD i default with isRevenge := isRevengeFlag s i })

/-- The running count incremented once per flagged row
(analysis.py, lines 362-364). -/
def revengeCountOf (s : List ETrade) : ℕ := (revengeFlags s).count true

/-! ## Portfolio aggregation (analysis.py, lines 366-513) -/

/-- numpy/pandas mean of a list of rationals.  Every call site below guards the
empty case exactly as the source does. -/
def qmean (l : List ℚ) : ℚ := l.sum / l.length

/-- analysis.py, line 367: trades with strictly positive pnl. -/
def winnersOf (s : List ETrade) : List ETrade := s.filter (fun t => 0 < t.pnl)

/-- analysis.py, line 368: trades with pnl less than or equal to zero. -/
def losersOf (s : List ETrade) : List ETrade := s.filter (fun t => t.pnl ≤ 0)

/-- analysis.py, line 370. -/
def winRateOf (s : List ETrade) : ℚ :=
  if 0 < s.length then ((winnersOf s).length : ℚ) / (s.length : ℚ) else 0

/-- analysis.py, lines 371-373. -/
def profitFactorOf (s : List ETrade) : ℚ :=
  let avg_win := if winnersOf s ≠ [] then qmean ((winnersOf s).map (·.pnl)) else 0
  let avg_loss := if losersOf s ≠ [] then |qmean ((losersOf s).map (·.pnl))| else 0
  if 0 < avg_loss then
    (avg_win * (winnersOf s).length) / (avg_loss * (losersOf s).length)
  else 0

/-- analysis.py, lines 375-376: plain mean of the valid (non-sentinel) fomo
scores. -/
def fomoIndexOf (s : List ETrade) : ℚ :=
  let valid := (s.map (·.fomo_score)).filter (· ≠ -1)
  if valid ≠ [] then qmean valid else 0

/-- analysis.py, lines 380-387: the contribution of one trade to the weighted
panic sum (`none` when the score is the sentinel).  A low panic score in a BULL
regime is discounted by the factor 0.67. -/
def panicContrib (t : ETrade) : Option ℚ :=
  if t.panic_score ≠ -1 then
    some (if t.marketRegime = "BULL" ∧ t.panic_score < 3/10 then
            max 0 (t.panic_score * (67/100))
          else t.panic_score)
  else none

/-- analysis.py, lines 378-390: regime-weighted panic index (1 minus the
weighted average of the valid panic scores). -/
def panicIndexOf (s : List ETrade) : ℚ :=
  let cs := s.filterMap panicContrib
  let weighted_panic_avg := if 0 < cs.length then cs.sum / (cs.length : ℚ) else 0
  1 - weighted_panic_avg

/-- analysis.py, lines 489-500: the contribution of one trade to the weighted
fomo sum (`none` when the score is the sentinel): BEAR scores are scaled by
1.5, BULL scores by 0.8. -/
def fomoWContrib (t : ETrade) : Option ℚ :=
  if t.fomo_score ≠ -1 then
    some (if t.marketRegime = "BEAR" then t.fomo_score * (3/2)
          else if t.marketRegime = "BULL" then t.fomo_score * (4/5)
          else t.fomo_score)
  else none

/-- analysis.py, lines 489-500: regime-weighted fomo index. -/
def weightedFomoIndexOf (s : List ETrade) : ℚ :=
  let cs := s.filterMap fomoWContrib
  if 0 < cs.length then cs.sum / (cs.length : ℚ) else 0

/-- analysis.py, lines 392-410: disposition ratio with the short-win ("chicken
exit") and long-loss multiplicative penalties. -/
def dispositionRatioOf (s : List ETrade) : ℚ :=
  let winners := winnersOf s
  let losers := losersOf s
  let avg_win_hold := if winners ≠ [] then qmean (winners.map (fun t => (t.durationDays : ℚ))) else 0
  let avg_loss_hold := if losers ≠ [] then qmean (losers.map (fun t => (t.durationDays : ℚ))) else 0
  let base0 := if 0 < avg_win_hold then avg_loss_hold / avg_win_hold else 0
  let short_wins := winners.filter (fun t => (t.durationDays : ℚ) < 1/10 ∧ t.returnPct < 1/50)
  let base1 :=
    if winners ≠ [] ∧ 0 < short_wins.length ∧
        3/10 < (short_wins.length : ℚ) / (winners.length : ℚ) then
      base0 * (1 + (short_wins.length : ℚ) / (winners.length : ℚ) * (1/2))
    else base0
  let long_losses := losers.filter (fun t => 30 < (t.durationDays : ℚ))
  if losers ≠ [] ∧ 0 < long_losses.length ∧
      1/5 < (long_losses.length : ℚ) / (losers.length : ℚ) then
    base1 * (1 + (long_losses.length : ℚ) / (losers.length : ℚ) * (3/10))
  else base1

/-- analysis.py, line 412: the per-trade return list, in chronological order. -/
def returnsOf (s : List ETrade) : List ℚ := s.map (·.returnPct)

/-- analysis.py, line 416. -/
def avgReturn (returns : List ℚ) : ℚ := if returns ≠ [] then qmean returns else 0

/-- analysis.py, line 417: the square of `np.std(returns)` (population
variance), guarded to 0 for fewer than 2 samples exactly as the source guards
the standard deviation itself. -/
def returnVariance (returns : List ℚ) : ℚ :=
  if 1 < returns.length then qmean (returns.map (fun r => (r - qmean returns) ^ 2)) else 0

/-- analysis.py, lines 419-421: Sharpe ratio.  The source tests
`std_dev > 0`; since the standard deviation is the square root of
`returnVariance`, that test is equivalent to `0 < returnVariance`. -/
noncomputable def sharpeRatio (returns : List ℚ) : ℝ :=
  if 0 < returnVariance returns then
    ((avgReturn returns - (2/100) / 252 : ℚ) : ℝ) / Real.sqrt ((returnVariance returns : ℚ) : ℝ)
  else 0

/-- analysis.py, lines 423-424: the mean of the squared strictly negative
returns, taken over the negative returns only; 0 when there are none (the
square of `downside_dev`). -/
def downsideMeanSq (returns : List ℚ) : ℚ :=
  let ds := returns.filter (· < 0)
  if ds ≠ [] then qmean (ds.map (fun r => r ^ 2)) else 0

/-- analysis.py, lines 423-428: Sortino ratio.  The source tests
`downside_dev > 0`; since `downside_dev` is the square root of
`downsideMeanSq`, that test is equivalent to `0 < downsideMeanSq`. -/
noncomputable def sortinoRatio (returns : List ℚ) : ℝ :=
  if 0 < downsideMeanSq returns then
    ((avgReturn returns : ℚ) : ℝ) / Real.sqrt ((downsideMeanSq returns : ℚ) : ℝ)
  else 0

/-- The Sortino ratio as claim C4 (and spec section 4.5) words it, for
comparison with `sortinoRatio`: the denominator is the square root of the mean
of `min(return, 0)²` taken over ALL returns, and the ratio is 0 when that
denominator is 0 or there are fewer than 2 samples. -/
noncomputable def sortinoClaimed (returns : List ℚ) : ℝ :=
  if 2 ≤ returns.length ∧ 0 < qmean (returns.map (fun r => (min r 0) ^ 2)) then
    ((avgReturn returns : ℚ) : ℝ) /
      Real.sqrt ((qmean (returns.map (fun r => (min r 0) ^ 2)) : ℚ) : ℝ)
  else 0

/-- pandas `cumsum` over the pnl column. -/
def pandasCumsum (l : List ℚ) : List ℚ :=
  (aux 0 l : List ℚ)
where
  aux : ℚ → List ℚ → List ℚ
    | _, [] => []
    | acc, x :: xs => (acc + x) :: aux (acc + x) xs

/-- analysis.py, lines 437-446: the drawdown scan over the cumulative-pnl
curve, carrying the running peak and the running maximum drawdown. -/
def mddLoop : List ℚ → ℚ → ℚ → ℚ
  | [], _, maxdd => maxdd
  | c :: rest, peak, maxdd =>
    let peak1 := if peak < c then c else peak
    let dd := if peak1 ≠ 0 then (if 0 < peak1 then (peak1 - c) / |peak1| else 0) else 0
    mddLoop rest peak1 (if maxdd < dd then dd else maxdd)

/-- analysis.py, lines 430-447: maximum drawdown of the chronological
cumulative-pnl curve, as a percentage of the peak.  NOTE: this value is
computed by analyze_trades and passed to the BehavioralMetrics constructor
(line 777), but the pydantic model of BehavioralMetrics (models.py, lines
15-27) declares no `max_drawdown` field, so pydantic silently drops it and the
response never carries it; accordingly the `BehavioralMetrics` structure below
has no such field. -/
def maxDrawdownCode (pnls : List ℚ) : ℚ :=
  match pandasCumsum pnls with
  | [] => 0
  | c :: cs => 100 * mddLoop (c :: cs) c 0

/-! ## Monte-Carlo luck estimation (analysis.py, lines 459-485)

The source reseeds numpy's global Mersenne-Twister generator with the fixed
seed 42 immediately before the simulation batch (`np.random.seed(42)`), so the
whole batch consumes a stream of pseudo-random numbers in `[0, 1)` that is a
fixed function of nothing but the seed.  The generator itself is external
library code; it is modelled here by `seededStream42`, an explicitly
constructed deterministic sequence (a linear congruential generator seeded
with 42 standing in for MT19937 — the claims proved below hold for every
deterministic stream, so the exact values are irrelevant).  One
`np.random.random()` or `np.random.choice(lst)` call consumes one element of
the stream; `np.random.choice` turns its draw into a uniform index. -/

/-- One step of the stand-in linear congruential generator. -/
def lcgStep (x : ℕ) : ℕ := (1103515245 * x + 12345) % 2147483648

/-- The generator state after `k` steps, starting from the fixed seed 42. -/
def lcgState : ℕ → ℕ
  | 0 => 42
  | k + 1 => lcgStep (lcgState k)

/-- The deterministic pseudo-random stream in `[0, 1)` produced by the seeded
generator; element `k` is the value of the `k`-th random call made after
`np.random.seed(42)`. -/
def seededStream42 (k : ℕ) : ℚ := (lcgState (k + 1) : ℚ) / 2147483648

/-- Modelling `np.random.choice(l)`: a uniform element of `l` selected by one
stream draw `u ∈ [0, 1)`. -/
def randChoice (l : List ℚ) (u : ℚ) : ℚ := l.getD (Int.toNat ⌊u * l.length⌋) 0

/-- analysis.py, lines 476-480: one simulated batch of `m` trades.  The state
is `(next stream index, running simulated total)`.  Each trade first draws
`u`; with `u < simWinRate` a winning pnl is resampled (one more draw) when the
winner list is non-empty, otherwise a losing pnl is resampled and subtracted
when the loser list is non-empty. -/
def simTrades (rand : ℕ → ℚ) (simWinRate : ℚ) (winPnls lossPnls : List ℚ) :
    ℕ → ℕ → ℚ → ℕ × ℚ
  | 0, k, acc => (k, acc)
  | m + 1, k, acc =>
    let u := rand k
    if u < simWinRate then
      match winPnls with
      | [] => simTrades rand simWinRate winPnls lossPnls m (k + 1) acc
      | _ :: _ =>
        simTrades rand simWinRate winPnls lossPnls m (k + 2)
          (acc + randChoice winPnls (rand (k + 1)))
    else
      match lossPnls with
      | [] => simTrades rand simWinRate winPnls lossPnls m (k + 1) acc
      | _ :: _ =>
        simTrades rand simWinRate winPnls lossPnls m (k + 2)
          (acc - randChoice lossPnls (rand (k + 1)))

/-- analysis.py, lines 474-483: the list of simulated totals for `trials`
consecutive simulations, threading the stream index across trials. -/
def runSims (rand : ℕ → ℚ) (simWinRate : ℚ) (winPnls lossPnls : List ℚ)
    (numTrades : ℕ) : ℕ → ℕ → List ℚ
  | 0, _ => []
  | trials + 1, k =>
    let r := simTrades rand simWinRate winPnls lossPnls numTrades k 0
    r.2 :: runSims rand simWinRate winPnls lossPnls numTrades trials r.1

/-- analysis.py, lines 459-485: the luck percentile.  It stays at the default
50.0 unless there are at least 5 trades, and is otherwise the percentage of
the 1000 simulated totals that strictly exceed the realized total. -/
def luckPercentileOf (rand : ℕ → ℚ) (s : List ETrade) : ℚ :=
  if 5 ≤ s.length ∧ 0 < s.length then
    let realized_total := (s.map (·.pnl)).sum
    let winPnls := (winnersOf s).map (·.pnl)
    let lossPnls := (losersOf s).map (fun t => |t.pnl|)
    let simWinRate := if 0 < s.length then ((winnersOf s).length : ℚ) / (s.length : ℚ) else 0
    if winPnls ≠ [] ∨ lossPnls ≠ [] then
      let totals := runSims rand simWinRate winPnls lossPnls s.length 1000 0
      let better_outcomes := totals.countP (fun x => decide (realized_total < x))
      ((better_outcomes : ℚ) / 1000) * 100
    else 50
  else 50

/-! ## Truth score (analysis.py, lines 502-513) -/

/-- analysis.py, lines 502-511: the unclamped composite score.  It mixes the
rational aggregates with the real-valued Sharpe ratio. -/
noncomputable def baseScoreOf (s : List ETrade) : ℝ :=
  ((50 : ℚ) + winRateOf s * 20 - weightedFomoIndexOf s * 20
    - (1 - panicIndexOf s) * 20
    - max 0 ((dispositionRatioOf s - 1) * 10)
    - (revengeCountOf s : ℚ) * 5 : ℚ)
  + (if 5 ≤ s.length then sharpeRatio (returnsOf s) * 5 else 5)

/-- analysis.py, line 513: `int(max(0, min(100, base_score)))`.  The Python
`int` truncates toward zero, which on the clamped non-negative value is the
floor. -/
noncomputable def truthScoreOf (s : List ETrade) : ℤ :=
  ⌊max 0 (min 100 (baseScoreOf s))⌋

/-! ## Personal baseline (analysis.py, lines 515-526) -/

/-- models.py, lines 69-74. -/
structure PersonalBaseline where
  avg_fomo : ℚ
  avg_panic : ℚ
  avg_mae : ℚ
  avg_disposition_ratio : ℚ
  avg_revenge_count : ℚ
  deriving DecidableEq, Inhabited

/-- analysis.py, lines 515-526: the personal baseline, present only with at
least 3 trades. -/
def personalBaselineOf (s : List ETrade) : Option PersonalBaseline :=
  if 3 ≤ s.length then
    let valid_mae := (s.map (·.mae)).filter (· ≠ 0)
    let avg_mae := if valid_mae ≠ [] then qmean valid_mae else 0
    some
      { avg_fomo := fomoIndexOf s
        avg_panic := panicIndexOf s
        avg_mae := if avg_mae < 0 then |avg_mae| else 0
        avg_disposition_ratio := dispositionRatioOf s
        avg_revenge_count := if 0 < s.length then (revengeCountOf s : ℚ) / (s.length : ℚ) else 0 }
  else none

/-! ## Behavior shift detection (analysis.py, lines 639-698) -/

/-- models.py, lines 89-94. -/
structure BehaviorShift where
  bias : String
  recent_value : ℚ
  baseline_value : ℚ
  change_percent : ℚ
  trend : String
  deriving DecidableEq, Inhabited

/-- analysis.py, lines 646-656: the trend classification of a percent change.
The generic assignment on line 649 is dead code — it is overwritten by the
if/elif/else chain on lines 651-656, under which "Panic Sell" uses a ±5
deadband with the improvement direction flipped, "Disposition Effect" uses a
±10 deadband, and every other bias (including "Revenge Trading") uses the
generic ±5 deadband. -/
def shiftTrend (bias : String) (change : ℚ) : String :=
  if bias = "Panic Sell" then
    if 5 < change then "IMPROVING" else if change < -5 then "WORSENING" else "STABLE"
  else if bias = "Disposition Effect" then
    if change < -10 then "IMPROVING" else if 10 < change then "WORSENING" else "STABLE"
  else
    if change < -5 then "IMPROVING" else if 5 < change then "WORSENING" else "STABLE"

/-- analysis.py, lines 646-664: the `calc_shift` helper.  A pandas mean over an
empty selection is NaN; that possibility is made explicit with `Option ℚ`
(`none` = NaN).  A NaN baseline fails the `baseline > 0` test, so nothing is
appended; a NaN recent mean makes every comparison on `change` false, so the
trend degrades to "STABLE" and the NaN values are sanitized to 0 by
`safe_float`. -/
def calcShift (recent baseline : Option ℚ) (bias : String) : Option BehaviorShift :=
  match baseline with
  | none => none
  | some b =>
    if 0 < b then
      match recent with
      | some r =>
        let change := (r - b) / b * 100
        some { bias := bias, recent_value := r, baseline_value := b
               change_percent := change, trend := shiftTrend bias change }
      | none =>
        some { bias := bias, recent_value := 0, baseline_value := b
               change_percent := 0, trend := "STABLE" }
    else none

/-- analysis.py, lines 667-674: the mean of the valid scores of a window
(`none` models the NaN produced when the window is non-empty but holds no
valid score; an empty window is mapped to 0 by the source). -/
def windowScoreMean (l : List ETrade) (f : ETrade → ℚ) : Option ℚ :=
  if l = [] then some 0
  else
    let v := (l.map f).filter (· ≠ -1)
    if v = [] then none else some (qmean v)

/-- analysis.py, lines 684-696: the disposition ratio of a window (0 when the
window lacks winners or losers). -/
def windowDisposition (l : List ETrade) : ℚ :=
  let w := winnersOf l
  let lo := losersOf l
  if w ≠ [] ∧ lo ≠ [] then
    qmean (lo.map (fun t => (t.durationDays : ℚ))) / qmean (w.map (fun t => (t.durationDays : ℚ)))
  else 0

/-- analysis.py, lines 639-698: the behavior-shift list, present only with at
least 6 trades.  The recent window is the last 3 trades, the baseline window
the first `max 1 (n - 3)` trades. -/
def behaviorShiftOf (s : List ETrade) : Option (List BehaviorShift) :=
  if 6 ≤ s.length then
    let recent := s.drop (s.length - 3)
    let baseline := s.take (max 1 (s.length - 3))
    let recRevRate : ℚ :=
      if 0 < recent.length then ((recent.countP (·.isRevenge)) : ℚ) / (recent.length : ℚ) else 0
    let baseRevRate : ℚ :=
      if 0 < baseline.length then ((baseline.countP (·.isRevenge)) : ℚ) / (baseline.length : ℚ) else 0
    let shifts :=
      [calcShift (windowScoreMean recent (·.fomo_score))
          (windowScoreMean baseline (·.fomo_score)) "FOMO",
       calcShift (windowScoreMean recent (·.panic_score))
          (windowScoreMean baseline (·.panic_score)) "Panic Sell",
       calcShift (some recRevRate) (some (baseRevRate + 1/10000)) "Revenge Trading",
       calcShift (some (windowDisposition recent)) (some (windowDisposition baseline))
          "Disposition Effect"].reduceOption
    if shifts = [] then none else some shifts
  else none

/-! ## Response assembly (analysis.py, lines 764-871; models.py) -/

/-- models.py, lines 15-27: the BehavioralMetrics pydantic model.  It declares
exactly these fields; in particular it declares no `max_drawdown` field, so
the `max_drawdown=` keyword passed by analysis.py line 777 is silently ignored
by pydantic. -/
structure BehavioralMetrics where
  total_trades : ℕ
  win_rate : ℚ
  profit_factor : ℚ
  fomo_score : ℚ
  panic_score : ℚ
  disposition_ratio : ℚ
  revenge_trading_count : ℕ
  truth_score : ℤ
  sharpe_ratio : ℝ
  sortino_ratio : ℝ
  alpha : ℚ
  luck_percentile : ℚ

/-- models.py, lines 127-136: the response object, restricted to the fields
the claims are about (the bias attribution, equity curve and deep-pattern
fields are orthogonal to every claim and are omitted). -/
structure AnalysisResponse where
  trades : List ETrade
  metrics : BehavioralMetrics
  is_low_sample : Bool
  personal_baseline : Option PersonalBaseline
  behavior_shift : Option (List BehaviorShift)

/-- The enriched, chronologically sorted, revenge-marked trade list that
analysis.py builds on lines 277-364 and from which every aggregate is
computed. -/
def analyzedTrades (raws : List RawTrade) (env : RawTrade → Option MarketData)
    (regimeOf : RawTrade → String) : List ETrade :=
  markRevenge (sortByEntry (raws.map (fun r => enrich r (env r) (regimeOf r))))

/-- analysis.py, lines 246-871: the analysis pipeline.  `env` supplies the
market data per trade, `regimeOf` the market-regime label per trade (both are
external downloads), and `jensens` the Jensen's-alpha result of
calculate_beta_and_jensens_alpha (`none` when that computation is invalid or
raises, in which case alpha falls back to the average return, lines 449-457).
The sorted, revenge-marked list is used both for the returned trade list and
for every aggregate.  The Monte-Carlo simulation consumes the stream of the
generator freshly seeded with 42 (line 473). -/
noncomputable def analyze_trades (raws : List RawTrade)
    (env : RawTrade → Option MarketData) (regimeOf : RawTrade → String)
    (jensens : Option ℚ) : AnalysisResponse :=
  let s := analyzedTrades raws env regimeOf
  { trades := s
    metrics :=
      { total_trades := s.length
        win_rate := winRateOf s
        profit_factor := profitFactorOf s
        fomo_score := fomoIndexOf s
        panic_score := panicIndexOf s
        disposition_ratio := dispositionRatioOf s
        revenge_trading_count := revengeCountOf s
        truth_score := truthScoreOf s
        sharpe_ratio := sharpeRatio (returnsOf s)
        sortino_ratio := sortinoRatio (returnsOf s)
        alpha := match jensens with
          | some a => a
          | none => avgReturn (returnsOf s)
        luck_percentile := luckPercentileOf seededStream42 s }
    is_low_sample := decide (s.length < 5)
    personal_baseline := personalBaselineOf s
    behavior_shift := behaviorShiftOf s }

/-! ## Shared helper lemmas -/

theorem length_sortByEntry (l : List ETrade) : (sortByEntry l).length = l.length :=
  (List.perm_insertionSort entryLE l).length_eq

theorem mem_sortByEntry {x : ETrade} {l : List ETrade} : x ∈ sortByEntry l ↔ x ∈ l :=
  (List.perm_insertionSort entryLE l).mem_iff

theorem length_markRevenge (s : List ETrade) : (markRevenge s).length = s.length := by
  simp [markRevenge]

theorem getD_markRevenge (s : List ETrade) (i : ℕ) (h : i < s.length) (d : ETrade) :
    (markRevenge s).getD i d =
      { s.getD i default with isRevenge := isRevengeFlag s i } := by
  have hlen : i < (markRevenge s).length := by rwa [length_markRevenge]
  rw [List.getD_eq_getElem _ _ hlen]
  simp [markRevenge]

theorem revengeCond_update_left (a c : ETrade) (b : Bool) :
    revengeCond { a with isRevenge := b } c = revengeCond a c := rfl

theorem revengeCond_update_right (a c : ETrade) (b : Bool) :
    revengeCond a { c with isRevenge := b } = revengeCond a c := rfl

theorem any_take_iff {α : Type} (l : List α) (i : ℕ) (p : α → Bool) :
    (l.take i).any p = true ↔ ∃ j, ∃ _ : j < min i l.length, p l[j] = true := by
  rw [List.any_eq_true]
  constructor
  · rintro ⟨x, hx, hp⟩
    obtain ⟨j, hj, rfl⟩ := List.mem_take_iff_getElem.mp hx
    exact ⟨j, hj, hp⟩
  · rintro ⟨j, hj, hp⟩
    exact ⟨l[j], List.mem_take_iff_getElem.mpr ⟨j, hj, rfl⟩, hp⟩

theorem isRevengeFlag_iff (s : List ETrade) (i : ℕ) :
    isRevengeFlag s i = true ↔
      ∃ j, ∃ _ : j < min i s.length,
        revengeCond (s.getD i default) (s.getD j default) = true := by
  unfold isRevengeFlag
  rw [any_take_iff]
  constructor
  · rintro ⟨j, hj, hp⟩
    refine ⟨j, hj, ?_⟩
    rwa [List.getD_eq_getElem _ _ (lt_of_lt_of_le hj (min_le_right _ _))]
  · rintro ⟨j, hj, hp⟩
    refine ⟨j, hj, ?_⟩
    rwa [List.getD_eq_getElem _ _ (lt_of_lt_of_le hj (min_le_right _ _))] at hp

theorem getD_markRevenge_default (s : List ETrade) (i : ℕ) (h : s.length ≤ i) :
    (markRevenge s).getD i default = default :=
  List.getD_eq_default _ _ (by rwa [length_markRevenge])

theorem isRevengeFlag_markRevenge (s : List ETrade) (i : ℕ) :
    isRevengeFlag (markRevenge s) i = isRevengeFlag s i := by
  rw [Bool.eq_iff_iff, isRevengeFlag_iff, isRevengeFlag_iff, length_markRevenge]
  have hcur : ∀ c : ETrade,
      revengeCond ((markRevenge s).getD i default) c = revengeCond (s.getD i default) c := by
    intro c
    rcases lt_or_le i s.length with hi | hi
    · rw [getD_markRevenge s i hi, revengeCond_update_left]
    · rw [getD_markRevenge_default s i hi, List.getD_eq_default _ _ hi]
  constructor
  · rintro ⟨j, hj, hp⟩
    refine ⟨j, hj, ?_⟩
    have hjs : j < s.length := lt_of_lt_of_le hj (min_le_right _ _)
    rw [hcur, getD_markRevenge s j hjs, revengeCond_update_right] at hp
    exact hp
  · rintro ⟨j, hj, hp⟩
    refine ⟨j, hj, ?_⟩
    have hjs : j < s.length := lt_of_lt_of_le hj (min_le_right _ _)
    rw [hcur, getD_markRevenge s j hjs, revengeCond_update_right]
    exact hp

theorem countP_markRevenge (base : List ETrade) :
    (markRevenge base).countP (·.isRevenge) =
      ((List.range base.length).map (fun i => isRevengeFlag base i)).count true := by
  rw [List.count_eq_countP, List.countP_map]
  unfold markRevenge
  rw [List.countP_map]
  apply List.countP_congr
  intro i _
  simp [Function.comp]

theorem revengeCountOf_markRevenge (base : List ETrade) :
    revengeCountOf (markRevenge base) = (markRevenge base).countP (·.isRevenge) := by
  rw [countP_markRevenge]
  unfold revengeCountOf revengeFlags
  rw [length_markRevenge]
  congr 1
  apply List.map_congr_left
  intro i _
  exact isRevengeFlag_markRevenge base i

/-- Claim C1: in the analysis response a trade is flagged `is_revenge` if and
only if some trade earlier in entry-time order, of the same ticker, has a
negative pnl and an exit time preceding this trade's entry time by 0 to 24
hours inclusive; and `revenge_trading_count` equals the number of trades so
flagged. -/
theorem claim_C1_revenge (raws : List RawTrade) (env : RawTrade → Option MarketData)
    (rg : RawTrade → String) (ja : Option ℚ) :
    (∀ i, i < (analyze_trades raws env rg ja).trades.length →
      (((analyze_trades raws env rg ja).trades.getD i default).isRevenge = true ↔
        ∃ j, j < i ∧
          ((analyze_trades raws env rg ja).trades.getD j default).ticker =
            ((analyze_trades raws env rg ja).trades.getD i default).ticker ∧
          ((analyze_trades raws env rg ja).trades.getD j default).pnl < 0 ∧
          0 ≤ ((analyze_trades raws env rg ja).trades.getD i default).entryTime -
              ((analyze_trades raws env rg ja).trades.getD j default).exitTime ∧
          ((analyze_trades raws env rg ja).trades.getD i default).entryTime -
              ((analyze_trades raws env rg ja).trades.getD j default).exitTime ≤ 24)) ∧
    (analyze_trades raws env rg ja).metrics.revenge_trading_count =
      (analyze_trades raws env rg ja).trades.countP (·.isRevenge) := by
  have hTr : (analyze_trades raws env rg ja).trades =
      markRevenge (sortByEntry (raws.map fun r => enrich r (env r) (rg r))) := rfl
  have hCnt : (analyze_trades raws env rg ja).metrics.revenge_trading_count =
      revengeCountOf (markRevenge (sortByEntry (raws.map fun r => enrich r (env r) (rg r)))) := rfl
  set base := sortByEntry (raws.map fun r => enrich r (env r) (rg r)) with hbase
  constructor
  · intro i hi
    rw [hTr] at hi ⊢
    have hib : i < base.length := by rwa [length_markRevenge] at hi
    have h1 : ((markRevenge base).getD i default).isRevenge = isRevengeFlag base i := by
      rw [getD_markRevenge base i hib]
    rw [h1, isRevengeFlag_iff]
    have hmin : min i base.length = i := min_eq_left (le_of_lt hib)
    rw [hmin]
    constructor
    · rintro ⟨j, hj, hp⟩
      have hjb : j < base.length := lt_trans hj hib
      refine ⟨j, hj, ?_⟩
      rw [getD_markRevenge base i hib, getD_markRevenge base j hjb]
      simp only [revengeCond, Bool.and_eq_true, decide_eq_true_eq, beq_iff_eq] at hp
      obtain ⟨⟨⟨h1, h2⟩, h3⟩, h4⟩ := hp
      exact ⟨h1, h2, h3, h4⟩
    · rintro ⟨j, hj, hp⟩
      have hjb : j < base.length := lt_trans hj hib
      refine ⟨j, hj, ?_⟩
      rw [getD_markRevenge base i hib, getD_markRevenge base j hjb] at hp
      obtain ⟨h1, h2, h3, h4⟩ := hp
      simp only [revengeCond, Bool.and_eq_true, decide_eq_true_eq, beq_iff_eq]
      exact ⟨⟨⟨h1, h2⟩, h3⟩, h4⟩
  · rw [hTr, hCnt]
    exact revengeCountOf_markRevenge base

/-- Concrete instantiation of claim C1: two same-ticker trades where the first
is a loss and the second enters 5 hours after the first's exit; the theorem's
characterisation applies at the second trade. -/
theorem claim_C1_revenge_witness :
    (1 < (analyze_trades
      [{ ticker := "A", entryTime := 0, exitTime := 10,
         entryPrice := 100, exitPrice := 90, qty := 1 },
       { ticker := "A", entryTime := 15, exitTime := 20,
         entryPrice := 100, exitPrice := 101, qty := 1 }]
      (fun _ => none) (fun _ => "UNKNOWN") none).trades.length) ∧
    (((analyze_trades
      [{ ticker := "A", entryTime := 0, exitTime := 10,
         entryPrice := 100, exitPrice := 90, qty := 1 },
       { ticker := "A", entryTime := 15, exitTime := 20,
         entryPrice := 100, exitPrice := 101, qty := 1 }]
      (fun _ => none) (fun _ => "UNKNOWN") none).trades.getD 1 default).isRevenge = true ↔
      ∃ j, j < 1 ∧
        ((analyze_trades
          [{ ticker := "A", entryTime := 0, exitTime := 10,
             entryPrice := 100, exitPrice := 90, qty := 1 },
           { ticker := "A", entryTime := 15, exitTime := 20,
             entryPrice := 100, exitPrice := 101, qty := 1 }]
          (fun _ => none) (fun _ => "UNKNOWN") none).trades.getD j default).ticker =
          ((analyze_trades
          [{ ticker := "A", entryTime := 0, exitTime := 10,
             entryPrice := 100, exitPrice := 90, qty := 1 },
           { ticker := "A", entryTime := 15, exitTime := 20,
             entryPrice := 100, exitPrice := 101, qty := 1 }]
          (fun _ => none) (fun _ => "UNKNOWN") none).trades.getD 1 default).ticker ∧
        ((analyze_trades
          [{ ticker := "A", entryTime := 0, exitTime := 10,
             entryPrice := 100, exitPrice := 90, qty := 1 },
           { ticker := "A", entryTime := 15, exitTime := 20,
             entryPrice := 100, exitPrice := 101, qty := 1 }]
          (fun _ => none) (fun _ => "UNKNOWN") none).trades.getD j default).pnl < 0 ∧
        0 ≤ ((analyze_trades
          [{ ticker := "A", entryTime := 0, exitTime := 10,
             entryPrice := 100, exitPrice := 90, qty := 1 },
           { ticker := "A", entryTime := 15, exitTime := 20,
             entryPrice := 100, exitPrice := 101, qty := 1 }]
          (fun _ => none) (fun _ => "UNKNOWN") none).trades.getD 1 default).entryTime -
            ((analyze_trades
          [{ ticker := "A", entryTime := 0, exitTime := 10,
             entryPrice := 100, exitPrice := 90, qty := 1 },
           { ticker := "A", entryTime := 15, exitTime := 20,
             entryPrice := 100, exitPrice := 101, qty := 1 }]
          (fun _ => none) (fun _ => "UNKNOWN") none).trades.getD j default).exitTime ∧
        ((analyze_trades
          [{ ticker := "A", entryTime := 0, exitTime := 10,
             entryPrice := 100, exitPrice := 90, qty := 1 },
           { ticker := "A", entryTime := 15, exitTime := 20,
             entryPrice := 100, exitPrice := 101, qty := 1 }]
          (fun _ => none) (fun _ => "UNKNOWN") none).trades.getD 1 default).entryTime -
            ((analyze_trades
          [{ ticker := "A", entryTime := 0, exitTime := 10,
             entryPrice := 100, exitPrice := 90, qty := 1 },
           { ticker := "A", entryTime := 15, exitTime := 20,
             entryPrice := 100, exitPrice := 101, qty := 1 }]
          (fun _ => none) (fun _ => "UNKNOWN") none).trades.getD j default).exitTime ≤ 24) :=
  ⟨by decide,
   (claim_C1_revenge
      [{ ticker := "A", entryTime := 0, exitTime := 10,
         entryPrice := 100, exitPrice := 90, qty := 1 },
       { ticker := "A", entryTime := 15, exitTime := 20,
         entryPrice := 100, exitPrice := 101, qty := 1 }]
      (fun _ => none) (fun _ => "UNKNOWN") none).1 1 (by decide)⟩

theorem calculate_volume_weight_bounds (c a : ℚ) :
    1 ≤ calculate_volume_weight c a ∧ calculate_volume_weight c a ≤ 3/2 := by
  simp only [calculate_volume_weight]
  constructor <;> split_ifs <;> norm_num

theorem volumeWeightFromAvg_bounds (c : ℚ) (a : Option ℚ) :
    1 ≤ volumeWeightFromAvg c a ∧ volumeWeightFromAvg c a ≤ 3/2 := by
  cases a with
  | none => norm_num [volumeWeightFromAvg]
  | some av =>
    simp only [volumeWeightFromAvg]
    split_ifs
    · exact calculate_volume_weight_bounds c av
    · norm_num

theorem clamp01_bounds (x : ℚ) : 0 ≤ max 0 (min 1 x) ∧ max 0 (min 1 x) ≤ 1 :=
  ⟨le_max_left _ _, max_le (by norm_num) (min_le_left _ _)⟩

theorem fomoAmp_bounds (b vw : ℚ) (hb0 : 0 ≤ b) (hb1 : b ≤ 1) (hvw : 0 ≤ vw) :
    0 ≤ (if 1 < vw ∧ 7/10 < b then min 1 (b * vw) else b) ∧
      (if 1 < vw ∧ 7/10 < b then min 1 (b * vw) else b) ≤ 1 := by
  split_ifs with h
  · exact ⟨le_min (by norm_num) (mul_nonneg hb0 hvw), min_le_left _ _⟩
  · exact ⟨hb0, hb1⟩

theorem panicRed_bounds (b vw : ℚ) (hb0 : 0 ≤ b) (hb1 : b ≤ 1) (hvw : vw ≤ 3/2) :
    0 ≤ (if 1 < vw ∧ b < 3/10 then max 0 (b * (2 - vw)) else b) ∧
      (if 1 < vw ∧ b < 3/10 then max 0 (b * (2 - vw)) else b) ≤ 1 := by
  split_ifs with h
  · refine ⟨le_max_left _ _, max_le (by norm_num) ?_⟩
    have h2 : 2 - vw ≤ 1 := by linarith [h.1]
    have h3 : 0 ≤ 2 - vw := by linarith
    calc b * (2 - vw) ≤ 1 * 1 := mul_le_mul hb1 h2 h3 (by norm_num)
    _ = 1 := by ring
  · exact ⟨hb0, hb1⟩

theorem calculate_metrics_fomo_bounds (t : RawTrade) (md : MarketData) :
    0 ≤ (calculate_metrics t md).fomo_score ∧ (calculate_metrics t md).fomo_score ≤ 1 := by
  simp only [calculate_metrics]
  exact fomoAmp_bounds _ _ (clamp01_bounds _).1 (clamp01_bounds _).2
    (le_trans (by norm_num) (volumeWeightFromAvg_bounds _ _).1)

theorem calculate_metrics_panic_bounds (t : RawTrade) (md : MarketData) :
    0 ≤ (calculate_metrics t md).panic_score ∧ (calculate_metrics t md).panic_score ≤ 1 := by
  simp only [calculate_metrics]
  exact panicRed_bounds _ _ (clamp01_bounds _).1 (clamp01_bounds _).2
    (volumeWeightFromAvg_bounds _ _).2

theorem enrich_score_bounds (r : RawTrade) (md : Option MarketData) (rg : String) :
    ((enrich r md rg).fomo_score = -1 ∨
      (0 ≤ (enrich r md rg).fomo_score ∧ (enrich r md rg).fomo_score ≤ 1)) ∧
    ((enrich r md rg).panic_score = -1 ∨
      (0 ≤ (enrich r md rg).panic_score ∧ (enrich r md rg).panic_score ≤ 1)) := by
  cases md with
  | none => exact ⟨Or.inl rfl, Or.inl rfl⟩
  | some d =>
    exact ⟨Or.inr (calculate_metrics_fomo_bounds r d),
           Or.inr (calculate_metrics_panic_bounds r d)⟩

/-- Claim C2: every trade in the returned enriched-trade list has fomo_score
and panic_score either equal to the sentinel -1.0 (market data unavailable)
or within [0, 1], the volume-weight amplification and reduction included. -/
theorem claim_C2_score_range (raws : List RawTrade) (env : RawTrade → Option MarketData)
    (rg : RawTrade → String) (ja : Option ℚ) :
    ∀ i, i < (analyze_trades raws env rg ja).trades.length →
      (((analyze_trades raws env rg ja).trades.getD i default).fomo_score = -1 ∨
        (0 ≤ ((analyze_trades raws env rg ja).trades.getD i default).fomo_score ∧
          ((analyze_trades raws env rg ja).trades.getD i default).fomo_score ≤ 1)) ∧
      (((analyze_trades raws env rg ja).trades.getD i default).panic_score = -1 ∨
        (0 ≤ ((analyze_trades raws env rg ja).trades.getD i default).panic_score ∧
          ((analyze_trades raws env rg ja).trades.getD i default).panic_score ≤ 1)) := by
  intro i hi
  have hTr : (analyze_trades raws env rg ja).trades =
      markRevenge (sortByEntry (raws.map fun r => enrich r (env r) (rg r))) := rfl
  set base := sortByEntry (raws.map fun r => enrich r (env r) (rg r)) with hbase
  rw [hTr] at hi ⊢
  have hib : i < base.length := by rwa [length_markRevenge] at hi
  rw [getD_markRevenge base i hib]
  have hmem : base.getD i default ∈ base := by
    rw [List.getD_eq_getElem _ _ hib]
    exact List.getElem_mem _
  have hmem2 : base.getD i default ∈ raws.map (fun r => enrich r (env r) (rg r)) :=
    mem_sortByEntry.mp hmem
  obtain ⟨r, _, hre⟩ := List.mem_map.mp hmem2
  rw [← hre]
  exact enrich_score_bounds r (env r) (rg r)

/-- Concrete instantiation of claim C2 at a single trade whose market data
fetch failed (index 0 of a one-trade analysis). -/
theorem claim_C2_score_range_witness :
    (0 < (analyze_trades
      [{ ticker := "A", entryTime := 0, exitTime := 10,
         entryPrice := 100, exitPrice := 90, qty := 1 }]
      (fun _ => none) (fun _ => "UNKNOWN") none).trades.length) ∧
    ((((analyze_trades
      [{ ticker := "A", entryTime := 0, exitTime := 10,
         entryPrice := 100, exitPrice := 90, qty := 1 }]
      (fun _ => none) (fun _ => "UNKNOWN") none).trades.getD 0 default).fomo_score = -1 ∨
      (0 ≤ ((analyze_trades
      [{ ticker := "A", entryTime := 0, exitTime := 10,
         entryPrice := 100, exitPrice := 90, qty := 1 }]
      (fun _ => none) (fun _ => "UNKNOWN") none).trades.getD 0 default).fomo_score ∧
        ((analyze_trades
      [{ ticker := "A", entryTime := 0, exitTime := 10,
         entryPrice := 100, exitPrice := 90, qty := 1 }]
      (fun _ => none) (fun _ => "UNKNOWN") none).trades.getD 0 default).fomo_score ≤ 1)) ∧
      (((analyze_trades
      [{ ticker := "A", entryTime := 0, exitTime := 10,
         entryPrice := 100, exitPrice := 90, qty := 1 }]
      (fun _ => none) (fun _ => "UNKNOWN") none).trades.getD 0 default).panic_score = -1 ∨
      (0 ≤ ((analyze_trades
      [{ ticker := "A", entryTime := 0, exitTime := 10,
         entryPrice := 100, exitPrice := 90, qty := 1 }]
      (fun _ => none) (fun _ => "UNKNOWN") none).trades.getD 0 default).panic_score ∧
        ((analyze_trades
      [{ ticker := "A", entryTime := 0, exitTime := 10,
         entryPrice := 100, exitPrice := 90, qty := 1 }]
      (fun _ => none) (fun _ => "UNKNOWN") none).trades.getD 0 default).panic_score ≤ 1))) :=
  ⟨by decide,
   claim_C2_score_range
     [{ ticker := "A", entryTime := 0, exitTime := 10,
        entryPrice := 100, exitPrice := 90, qty := 1 }]
     (fun _ => none) (fun _ => "UNKNOWN") none 0 (by decide)⟩

/-- Claim C3: for every non-empty input trade set the truth score is an
integer within [0, 100] (the clamp on analysis.py line 513 guarantees this
whatever the unclamped composite evaluates to, sentinel scores included). -/
theorem claim_C3_truth_score_range (raws : List RawTrade) (env : RawTrade → Option MarketData)
    (rg : RawTrade → String) (ja : Option ℚ) (_ : raws ≠ []) :
    0 ≤ (analyze_trades raws env rg ja).metrics.truth_score ∧
    (analyze_trades raws env rg ja).metrics.truth_score ≤ 100 := by
  have hT : (analyze_trades raws env rg ja).metrics.truth_score =
      truthScoreOf (analyzedTrades raws env rg) := rfl
  rw [hT]
  unfold truthScoreOf
  constructor
  · refine Int.le_floor.mpr ?_
    push_cast
    exact le_max_left _ _
  · have hle : max 0 (min 100 (baseScoreOf (analyzedTrades raws env rg))) ≤ (100 : ℝ) :=
      max_le (by norm_num) (min_le_left _ _)
    calc ⌊max 0 (min 100 (baseScoreOf (analyzedTrades raws env rg)))⌋
        ≤ ⌊(100 : ℝ)⌋ := Int.floor_le_floor hle
      _ = 100 := by norm_num

/-- Concrete instantiation of claim C3 at a one-trade analysis. -/
theorem claim_C3_truth_score_range_witness :
    0 ≤ (analyze_trades
      [{ ticker := "A", entryTime := 0, exitTime := 10,
         entryPrice := 100, exitPrice := 90, qty := 1 }]
      (fun _ => none) (fun _ => "UNKNOWN") none).metrics.truth_score ∧
    (analyze_trades
      [{ ticker := "A", entryTime := 0, exitTime := 10,
         entryPrice := 100, exitPrice := 90, qty := 1 }]
      (fun _ => none) (fun _ => "UNKNOWN") none).metrics.truth_score ≤ 100 :=
  claim_C3_truth_score_range
    [{ ticker := "A", entryTime := 0, exitTime := 10,
       entryPrice := 100, exitPrice := 90, qty := 1 }]
    (fun _ => none) (fun _ => "UNKNOWN") none (by decide)

theorem length_runSims (rand : ℕ → ℚ) (p : ℚ) (w lo : List ℚ) (ntr : ℕ) :
    ∀ trials k, (runSims rand p w lo ntr trials k).length = trials := by
  intro trials
  induction trials with
  | zero => intro k; rfl
  | succ m ih =>
    intro k
    simp only [runSims]
    rw [List.length_cons, ih]

theorem countP_runSims_le (rand : ℕ → ℚ) (p : ℚ) (w lo : List ℚ) (ntr trials k : ℕ)
    (q : ℚ → Bool) : (runSims rand p w lo ntr trials k).countP q ≤ trials := by
  have h1 := List.countP_le_length (p := q) (l := runSims rand p w lo ntr trials k)
  rwa [length_runSims] at h1

theorem luckValue_bounds (l : List ℚ) (q : ℚ → Bool) (h : l.length = 1000) :
    0 ≤ ((l.countP q : ℕ) : ℚ) / 1000 * 100 ∧ ((l.countP q : ℕ) : ℚ) / 1000 * 100 ≤ 100 := by
  have hc : l.countP q ≤ 1000 := by
    have := List.countP_le_length (p := q) (l := l)
    omega
  have hcq : ((l.countP q : ℕ) : ℚ) ≤ 1000 := by exact_mod_cast hc
  constructor
  · positivity
  · linarith

theorem luckPercentileOf_bounds (rand : ℕ → ℚ) (s : List ETrade) :
    0 ≤ luckPercentileOf rand s ∧ luckPercentileOf rand s ≤ 100 := by
  simp only [luckPercentileOf]
  by_cases h1 : 5 ≤ s.length ∧ 0 < s.length
  · rw [if_pos h1]
    by_cases h2 : (winnersOf s).map (fun x => x.pnl) ≠ [] ∨
        (losersOf s).map (fun t => |t.pnl|) ≠ []
    · rw [if_pos h2]
      exact luckValue_bounds _ _ (length_runSims _ _ _ _ _ _ _)
    · rw [if_neg h2]
      norm_num
  · rw [if_neg h1]
    norm_num

/-- Claim C7: with at least 5 trades, the Monte-Carlo luck percentile is a
deterministic function of the trade inputs — the simulation consumes the
stream of the generator freshly reseeded with 42, so two analyses of the same
trade set (here differing only in the irrelevant external alpha input) agree —
and it lies within [0, 100]. -/
theorem claim_C7_luck_deterministic_and_bounded (raws : List RawTrade)
    (env : RawTrade → Option MarketData) (rg : RawTrade → String) (ja ja2 : Option ℚ)
    (_ : 5 ≤ raws.length) :
    (analyze_trades raws env rg ja).metrics.luck_percentile =
      (analyze_trades raws env rg ja2).metrics.luck_percentile ∧
    0 ≤ (analyze_trades raws env rg ja).metrics.luck_percentile ∧
    (analyze_trades raws env rg ja).metrics.luck_percentile ≤ 100 := by
  refine ⟨rfl, ?_, ?_⟩
  · exact (luckPercentileOf_bounds seededStream42 (analyzedTrades raws env rg)).1
  · exact (luckPercentileOf_bounds seededStream42 (analyzedTrades raws env rg)).2

/-- Concrete instantiation of claim C7 at a five-trade analysis. -/
theorem claim_C7_luck_deterministic_and_bounded_witness :
    (analyze_trades
      [{ ticker := "A", entryTime := 0, exitTime := 1, entryPrice := 100, exitPrice := 90, qty := 1 },
       { ticker := "A", entryTime := 2, exitTime := 3, entryPrice := 100, exitPrice := 110, qty := 1 },
       { ticker := "B", entryTime := 4, exitTime := 5, entryPrice := 50, exitPrice := 60, qty := 2 },
       { ticker := "B", entryTime := 6, exitTime := 7, entryPrice := 50, exitPrice := 40, qty := 2 },
       { ticker := "C", entryTime := 8, exitTime := 9, entryPrice := 10, exitPrice := 10, qty := 1 }]
      (fun _ => none) (fun _ => "UNKNOWN") none).metrics.luck_percentile =
      (analyze_trades
      [{ ticker := "A", entryTime := 0, exitTime := 1, entryPrice := 100, exitPrice := 90, qty := 1 },
       { ticker := "A", entryTime := 2, exitTime := 3, entryPrice := 100, exitPrice := 110, qty := 1 },
       { ticker := "B", entryTime := 4, exitTime := 5, entryPrice := 50, exitPrice := 60, qty := 2 },
       { ticker := "B", entryTime := 6, exitTime := 7, entryPrice := 50, exitPrice := 40, qty := 2 },
       { ticker := "C", entryTime := 8, exitTime := 9, entryPrice := 10, exitPrice := 10, qty := 1 }]
      (fun _ => none) (fun _ => "UNKNOWN") (some 1)).metrics.luck_percentile ∧
    0 ≤ (analyze_trades
      [{ ticker := "A", entryTime := 0, exitTime := 1, entryPrice := 100, exitPrice := 90, qty := 1 },
       { ticker := "A", entryTime := 2, exitTime := 3, entryPrice := 100, exitPrice := 110, qty := 1 },
       { ticker := "B", entryTime := 4, exitTime := 5, entryPrice := 50, exitPrice := 60, qty := 2 },
       { ticker := "B", entryTime := 6, exitTime := 7, entryPrice := 50, exitPrice := 40, qty := 2 },
       { ticker := "C", entryTime := 8, exitTime := 9, entryPrice := 10, exitPrice := 10, qty := 1 }]
      (fun _ => none) (fun _ => "UNKNOWN") none).metrics.luck_percentile ∧
    (analyze_trades
      [{ ticker := "A", entryTime := 0, exitTime := 1, entryPrice := 100, exitPrice := 90, qty := 1 },
       { ticker := "A", entryTime := 2, exitTime := 3, entryPrice := 100, exitPrice := 110, qty := 1 },
       { ticker := "B", entryTime := 4, exitTime := 5, entryPrice := 50, exitPrice := 60, qty := 2 },
       { ticker := "B", entryTime := 6, exitTime := 7, entryPrice := 50, exitPrice := 40, qty := 2 },
       { ticker := "C", entryTime := 8, exitTime := 9, entryPrice := 10, exitPrice := 10, qty := 1 }]
      (fun _ => none) (fun _ => "UNKNOWN") none).metrics.luck_percentile ≤ 100 :=
  claim_C7_luck_deterministic_and_bounded
    [{ ticker := "A", entryTime := 0, exitTime := 1, entryPrice := 100, exitPrice := 90, qty := 1 },
     { ticker := "A", entryTime := 2, exitTime := 3, entryPrice := 100, exitPrice := 110, qty := 1 },
     { ticker := "B", entryTime := 4, exitTime := 5, entryPrice := 50, exitPrice := 60, qty := 2 },
     { ticker := "B", entryTime := 6, exitTime := 7, entryPrice := 50, exitPrice := 40, qty := 2 },
     { ticker := "C", entryTime := 8, exitTime := 9, entryPrice := 10, exitPrice := 10, qty := 1 }]
    (fun _ => none) (fun _ => "UNKNOWN") none (some 1) (by decide)

/-- Claim C8: an input of exactly 2 trades yields is_low_sample = true, no
personal baseline, no behavior shift, and the default luck percentile 50.0
(each insufficient-sample computation is skipped entirely). -/
theorem claim_C8_low_sample_gates (raws : List RawTrade) (env : RawTrade → Option MarketData)
    (rg : RawTrade → String) (ja : Option ℚ) (h : raws.length = 2) :
    (analyze_trades raws env rg ja).is_low_sample = true ∧
    (analyze_trades raws env rg ja).personal_baseline = none ∧
    (analyze_trades raws env rg ja).behavior_shift = none ∧
    (analyze_trades raws env rg ja).metrics.luck_percentile = 50 := by
  have hlen : (analyzedTrades raws env rg).length = 2 := by
    unfold analyzedTrades
    rw [length_markRevenge, length_sortByEntry, List.length_map, h]
  refine ⟨?_, ?_, ?_, ?_⟩
  · show decide ((analyzedTrades raws env rg).length < 5) = true
    rw [hlen]
    rfl
  · show personalBaselineOf (analyzedTrades raws env rg) = none
    unfold personalBaselineOf
    rw [hlen]
    norm_num
  · show behaviorShiftOf (analyzedTrades raws env rg) = none
    unfold behaviorShiftOf
    rw [hlen]
    norm_num
  · show luckPercentileOf seededStream42 (analyzedTrades raws env rg) = 50
    unfold luckPercentileOf
    rw [hlen]
    norm_num

/-- Concrete instantiation of claim C8 at a two-trade analysis. -/
theorem claim_C8_low_sample_gates_witness :
    (analyze_trades
      [{ ticker := "A", entryTime := 0, exitTime := 10, entryPrice := 100, exitPrice := 90, qty := 1 },
       { ticker := "B", entryTime := 20, exitTime := 30, entryPrice := 10, exitPrice := 12, qty := 1 }]
      (fun _ => none) (fun _ => "UNKNOWN") none).is_low_sample = true ∧
    (analyze_trades
      [{ ticker := "A", entryTime := 0, exitTime := 10, entryPrice := 100, exitPrice := 90, qty := 1 },
       { ticker := "B", entryTime := 20, exitTime := 30, entryPrice := 10, exitPrice := 12, qty := 1 }]
      (fun _ => none) (fun _ => "UNKNOWN") none).personal_baseline = none ∧
    (analyze_trades
      [{ ticker := "A", entryTime := 0, exitTime := 10, entryPrice := 100, exitPrice := 90, qty := 1 },
       { ticker := "B", entryTime := 20, exitTime := 30, entryPrice := 10, exitPrice := 12, qty := 1 }]
      (fun _ => none) (fun _ => "UNKNOWN") none).behavior_shift = none ∧
    (analyze_trades
      [{ ticker := "A", entryTime := 0, exitTime := 10, entryPrice := 100, exitPrice := 90, qty := 1 },
       { ticker := "B", entryTime := 20, exitTime := 30, entryPrice := 10, exitPrice := 12, qty := 1 }]
      (fun _ => none) (fun _ => "UNKNOWN") none).metrics.luck_percentile = 50 :=
  claim_C8_low_sample_gates
    [{ ticker := "A", entryTime := 0, exitTime := 10, entryPrice := 100, exitPrice := 90, qty := 1 },
     { ticker := "B", entryTime := 20, exitTime := 30, entryPrice := 10, exitPrice := 12, qty := 1 }]
    (fun _ => none) (fun _ => "UNKNOWN") none (by decide)

/-- Claim C5 counterexample: a +7% change for Revenge Trading is within the
±10 deadband the claim asserts, yet the code classifies it WORSENING, because
the revenge bias falls into the generic ±5 branch of calc_shift
(analysis.py, lines 651-656). -/
theorem claim_C5_counterexample :
    |(7 : ℚ)| ≤ 10 ∧ shiftTrend "Revenge Trading" 7 = "WORSENING" ∧
      shiftTrend "Revenge Trading" 7 ≠ "STABLE" := by
  refine ⟨by norm_num, ?_, ?_⟩ <;> decide

/-- Claim C5 as amended: the behavior-shift trend uses a ±5 deadband for FOMO,
Panic Sell and Revenge Trading (only Disposition Effect gets ±10), with the
direction of improvement flipped for Panic Sell: changes within the deadband
are STABLE, outside it IMPROVING or WORSENING per the bias's direction. -/
theorem claim_C5_amended_deadbands (c : ℚ) :
    shiftTrend "FOMO" c =
      (if c < -5 then "IMPROVING" else if 5 < c then "WORSENING" else "STABLE") ∧
    shiftTrend "Panic Sell" c =
      (if 5 < c then "IMPROVING" else if c < -5 then "WORSENING" else "STABLE") ∧
    shiftTrend "Disposition Effect" c =
      (if c < -10 then "IMPROVING" else if 10 < c then "WORSENING" else "STABLE") ∧
    shiftTrend "Revenge Trading" c =
      (if c < -5 then "IMPROVING" else if 5 < c then "WORSENING" else "STABLE") :=
  ⟨rfl, rfl, rfl, rfl⟩

/-- Claim C6: the per-trade regime weight is exactly the table function of
(regime, fomo_score, panic_score), a fomo-buy being a valid score at least
0.7 and a panic-sell a valid score at most 0.3; in BULL the panic-sell column
governs a simultaneous fomo-buy and panic-sell, in BEAR the fomo-buy column
does, and SIDEWAYS or UNKNOWN always weigh 1.0. -/
theorem claim_C6_regime_weight_table (f p : ℚ) :
    calculate_regime_weight "BULL" f p =
      (if p ≠ -1 ∧ p ≤ 3/10 then 3/2 else if f ≠ -1 ∧ 7/10 ≤ f then 4/5 else 1) ∧
    calculate_regime_weight "BEAR" f p =
      (if f ≠ -1 ∧ 7/10 ≤ f then 3/2 else if p ≠ -1 ∧ p ≤ 3/10 then 1 else 1) ∧
    calculate_regime_weight "SIDEWAYS" f p = 1 ∧
    calculate_regime_weight "UNKNOWN" f p = 1 :=
  ⟨rfl, rfl, rfl, rfl⟩

/-- Claim C10: the reported pnl nets out a modelled transaction cost of 0.3%
of the absolute entry-side trade value (0.1% commission plus 0.05% slippage,
each charged twice), so a flat trade with non-zero trade value has a strictly
negative pnl and lands among the losers (pnl less than or equal to 0), never
among the winners, of every downstream aggregate. -/
theorem claim_C10_pnl_cost (r : RawTrade) (md : Option MarketData) (rg : String) :
    (enrich r md rg).pnl =
      (r.exitPrice - r.entryPrice) * r.qty - (3/1000) * |r.entryPrice * r.qty| ∧
    (r.exitPrice = r.entryPrice → r.entryPrice * r.qty ≠ 0 →
      (enrich r md rg).pnl < 0 ∧
      ∀ s : List ETrade, enrich r md rg ∈ s →
        enrich r md rg ∈ losersOf s ∧ enrich r md rg ∉ winnersOf s) := by
  have hp : (enrich r md rg).pnl =
      (r.exitPrice - r.entryPrice) * r.qty -
        (|r.entryPrice * r.qty| * (1/1000) * 2 + |r.entryPrice * r.qty| * (5/10000) * 2) := rfl
  constructor
  · rw [hp]
    ring
  · intro h1 h2
    have habs : 0 < |r.entryPrice * r.qty| := abs_pos.mpr h2
    have hpnl : (enrich r md rg).pnl < 0 := by
      rw [hp, h1]
      ring_nf
      nlinarith [habs]
    refine ⟨hpnl, ?_⟩
    intro s hs
    constructor
    · exact List.mem_filter.mpr ⟨hs, by simpa using le_of_lt hpnl⟩
    · intro hw
      have hgt := (List.mem_filter.mp hw).2
      simp only [decide_eq_true_eq] at hgt
      linarith

/-- Concrete instantiation of claim C10: a trade entered and exited at price
100 with quantity 1 has pnl equal to minus the 0.3% cost and is a loser. -/
theorem claim_C10_pnl_cost_witness :
    ((enrich { ticker := "A", entryTime := 0, exitTime := 1,
               entryPrice := 100, exitPrice := 100, qty := 1 } none "UNKNOWN").pnl =
      ((100 : ℚ) - 100) * 1 - (3/1000) * |(100 : ℚ) * 1|) ∧
    (enrich { ticker := "A", entryTime := 0, exitTime := 1,
              entryPrice := 100, exitPrice := 100, qty := 1 } none "UNKNOWN").pnl < 0 :=
  ⟨(claim_C10_pnl_cost { ticker := "A", entryTime := 0, exitTime := 1,
                         entryPrice := 100, exitPrice := 100, qty := 1 } none "UNKNOWN").1,
   ((claim_C10_pnl_cost { ticker := "A", entryTime := 0, exitTime := 1,
                          entryPrice := 100, exitPrice := 100, qty := 1 } none "UNKNOWN").2
      rfl (by norm_num)).1⟩

/-- Claim C4 counterexample: for the 4-sample return list
[0.2, 0.2, 0.2, -0.2] the code's Sortino ratio divides by the root mean
square of the negative returns only (sqrt(1/25) = 1/5), giving 1/2, while the
claimed all-returns denominator (sqrt(1/100) = 1/10) would give 1. -/
theorem claim_C4_counterexample :
    sortinoRatio [1/5, 1/5, 1/5, -1/5] = 1/2 ∧
    sortinoClaimed [1/5, 1/5, 1/5, -1/5] = 1 ∧
    sortinoRatio [1/5, 1/5, 1/5, -1/5] ≠ sortinoClaimed [1/5, 1/5, 1/5, -1/5] := by
  have h1 : downsideMeanSq [1/5, 1/5, 1/5, -1/5] = 1/25 := by
    norm_num [downsideMeanSq, qmean, List.filter_cons]
  have h2 : avgReturn [1/5, 1/5, 1/5, -1/5] = 1/10 := by
    rw [avgReturn, if_pos (List.cons_ne_nil _ _)]
    norm_num [qmean]
  have h3 : qmean ([(1:ℚ)/5, 1/5, 1/5, -1/5].map (fun r => (min r 0) ^ 2)) = 1/100 := by
    norm_num [qmean]
  have hA : sortinoRatio [1/5, 1/5, 1/5, -1/5] = 1/2 := by
    rw [sortinoRatio, h1, h2, if_pos (by norm_num)]
    push_cast
    rw [show ((1:ℝ)/25) = (1/5)^2 by norm_num, Real.sqrt_sq (by norm_num : (0:ℝ) ≤ 1/5)]
    norm_num
  have hB : sortinoClaimed [1/5, 1/5, 1/5, -1/5] = 1 := by
    rw [sortinoClaimed, h3, if_pos (by norm_num)]
    rw [h2]
    push_cast
    rw [show ((1:ℝ)/100) = (1/10)^2 by norm_num, Real.sqrt_sq (by norm_num : (0:ℝ) ≤ 1/10)]
    norm_num
  refine ⟨hA, hB, ?_⟩
  rw [hA, hB]
  norm_num

/-- Claim C4 as amended: the response's sortino_ratio equals the mean of all
per-trade returns divided by sqrt of the mean of the squared NEGATIVE returns,
that mean being taken over the negative returns only, and it is 0 exactly when
there is no negative return (there is no minimum-sample guard: the code guards
only the denominator's positivity). -/
theorem claim_C4_amended_sortino (raws : List RawTrade) (env : RawTrade → Option MarketData)
    (rg : RawTrade → String) (ja : Option ℚ) :
    (analyze_trades raws env rg ja).metrics.sortino_ratio =
      (if (returnsOf (analyzedTrades raws env rg)).filter (fun r => r < 0) = [] then 0
       else ((avgReturn (returnsOf (analyzedTrades raws env rg)) : ℚ) : ℝ) /
         Real.sqrt ((qmean (((returnsOf (analyzedTrades raws env rg)).filter
           (fun r => r < 0)).map (fun r => r ^ 2)) : ℚ) : ℝ)) := by
  have hS : (analyze_trades raws env rg ja).metrics.sortino_ratio =
      sortinoRatio (returnsOf (analyzedTrades raws env rg)) := rfl
  rw [hS]
  set rs := returnsOf (analyzedTrades raws env rg) with hrs
  by_cases h : rs.filter (fun r => r < 0) = []
  · have hd : downsideMeanSq rs = 0 := by
      simp [downsideMeanSq, h]
    rw [sortinoRatio, hd, if_neg (by norm_num), if_pos h]
  · have hd : downsideMeanSq rs = qmean ((rs.filter (fun r => r < 0)).map (fun r => r ^ 2)) := by
      simp only [downsideMeanSq]
      rw [if_pos h]
    have hpos : 0 < qmean ((rs.filter (fun r => r < 0)).map (fun r => r ^ 2)) := by
      apply div_pos
      · apply List.sum_pos
        · intro x hx
          obtain ⟨r, hr, rfl⟩ := List.mem_map.mp hx
          have hrneg : r < 0 := by simpa using (List.mem_filter.mp hr).2
          have hrr : 0 < r * r := mul_pos_of_neg_of_neg hrneg hrneg
          calc (0:ℚ) < r * r := hrr
            _ = r ^ 2 := (pow_two r).symm
        · intro hmap
          exact h (List.map_eq_nil_iff.mp hmap)
      · have hlen : 0 < ((rs.filter (fun r => r < 0)).map (fun r => r ^ 2)).length :=
          List.length_pos.mpr (fun hmap => h (List.map_eq_nil_iff.mp hmap))
        exact_mod_cast hlen
    rw [sortinoRatio, hd, if_pos hpos, if_neg h]

/-- Claim C9, code evaluation at the failing input: for the pnl sequence
[10, -5] the cumulative curve is [10, 5] and analyze_trades computes a
max_drawdown of 50 (percent of the peak 10); analysis.py line 777 passes this
value as the keyword `max_drawdown=` to the BehavioralMetrics constructor, but
the pydantic model (models.py, lines 15-27, mirrored by `BehavioralMetrics`
above) declares no such field, so pydantic silently discards it and the
response carries no max_drawdown. -/
theorem claim_C9_max_drawdown_computed_but_dropped :
    maxDrawdownCode [10, -5] = 50 := by
  norm_num [maxDrawdownCode, pandasCumsum, pandasCumsum.aux, mddLoop]

end Reflex
